import Mathlib

/-!
Shallow embedding of the canadian-weather-etl validation and transformation
pipeline (src/extract_data.py and src/transform_data.py), together with
theorems settling the specification claims about it.

Conventions of the embedding:
* tabular cells are a tagged value type; numeric values are rationals;
  timestamps are calendar-day ordinals (days since 1970-01-01), matching the
  data model of the specification in which timestamps are calendar dates;
* a pandas dataframe inspected column-wise is an ordered association list
  from column name to cell list; the row-wise weather table of the
  transformation stage is a list of observation records;
* fallible code (pandas KeyError / ValueError) returns Except;
* functions that can mutate the inspected dataframe in place return the
  dataframe-after-call alongside their result.
-/

namespace WeatherETL

/-- One tabular cell.  A timestamp-bearing cell is either already-parsed
datetime data, raw text that parses to a given day, raw text that fails to
parse, or a missing value.  Numeric measurement cells hold rationals. -/
inductive Cell where
  | num (q : Rat)
  | date (d : Int)
  | text (d : Int)
  | bad
  | null
deriving DecidableEq, Repr

/-- Embedding of pandas to_datetime with coercion of errors: parsed
datetimes stay, parseable text becomes a datetime, unparseable text and
missing values become null (NaT).  Numeric timestamp cells are outside the
modeled input domain (the source date column holds text). -/
def coerceCell : Cell → Cell
  | .num _ => .null
  | .date d => .date d
  | .text d => .date d
  | .bad => .null
  | .null => .null

/-- The datetime value of a cell, when it has one. -/
def cellDate? : Cell → Option Int
  | .date d => some d
  | _ => none

/-- A column-oriented dataframe: ordered columns of cells. -/
abbrev DF := List (String × List Cell)

/-- Embedding of check_nulls (src/extract_data.py): per-column null counts.
The inspected dataframe is returned unchanged (the source only reads). -/
def check_nulls (df : DF) : List (String × Nat) × DF :=
  (df.map (fun p => (p.1, p.2.countP (fun c => c == Cell.null))), df)

/-- The numeric values of a column, nulls and non-numeric cells skipped
(pandas quantile and comparisons skip NaN). -/
def numVals (cells : List Cell) : List Rat :=
  cells.filterMap (fun c => match c with | .num q => some q | _ => none)

/-- Embedding of pandas Series.quantile with linear interpolation (the
default): on sorted values x_0 .. x_(n-1), position h = q*(n-1), result
x_j + (h-j)*(x_(j+1) - x_j) with j = floor h.  None on an empty column. -/
def quantileLinear (vals : List Rat) (q : Rat) : Option Rat :=
  if vals.isEmpty then none else
  let srt := List.insertionSort (· ≤ ·) vals
  let n := srt.length
  let h : Rat := q * ((n : Rat) - 1)
  let j : Nat := h.floor.toNat
  let g : Rat := h - (h.floor : Rat)
  let xj := srt.getD j 0
  let xj1 := srt.getD (j + 1) xj
  some (xj + g * (xj1 - xj))

/-- Per-column outlier report entry of check_outliers. -/
structure OutlierInfo where
  count : Nat
  lower_bound : Option Rat
  upper_bound : Option Rat
deriving DecidableEq, Repr

/-- The cells of a column lying outside the outlier bounds (the rows the
source selects with the boolean mask); non-numeric cells never compare
outside (NaN comparisons are false). -/
def outlierCells (cells : List Cell) (lb ub : Rat) : List Cell :=
  cells.filter (fun c => match c with
    | .num v => decide (v < lb ∨ v > ub)
    | _ => false)

/-- Embedding of check_outliers (src/extract_data.py): for each requested
numeric column present in the dataframe, Q1 and Q3 by linear-interpolation
quantiles, IQR bounds with the given factor, and the count of rows outside
the bounds.  Absent columns are skipped.  On a column with no numeric
values the bounds are NaN (none) and no row compares outside.  The
inspected dataframe is returned unchanged (the source only reads). -/
def check_outliers (df : DF) (numericColumns : List String) (factor : Rat) :
    List (String × OutlierInfo) × DF :=
  (numericColumns.filterMap (fun col =>
    match List.lookup col df with
    | none => none
    | some cells =>
      match quantileLinear (numVals cells) (1/4), quantileLinear (numVals cells) (3/4) with
      | some q1, some q3 =>
        let iqr := q3 - q1
        let lb := q1 - factor * iqr
        let ub := q3 + factor * iqr
        some (col, ⟨(outlierCells cells lb ub).length, some lb, some ub⟩)
      | _, _ => some (col, ⟨0, none, none⟩)), df)

/-- The parsed (non-null) datetime values of a column after coercion. -/
def parsedDates (cells : List Cell) : List Int :=
  (cells.map coerceCell).filterMap cellDate?

/-- The full daily calendar range between two day ordinals, inclusive
(pandas date_range with freq D). -/
def dateRange (lo hi : Int) : List Int :=
  (List.range (hi - lo + 1).toNat).map (fun (i : Nat) => lo + (i : Int))

/-- Embedding of check_missing_days (src/extract_data.py).  Returns the
dataframe after the call (the source assigns the coerced date column back
in place) together with the result: none when the date column is absent
(the source prints and returns None before mutating); an error when the
column has no parseable date (pandas date_range raises on NaT endpoints);
otherwise the days of the full min-to-max range absent from the data. -/
def check_missing_days (df : DF) (dateColumn : String) :
    DF × Except String (Option (List Int)) :=
  match List.lookup dateColumn df with
  | none => (df, .ok none)
  | some cells =>
    let coerced := cells.map coerceCell
    let df' := df.map (fun p => if p.1 = dateColumn then (p.1, coerced) else p)
    match parsedDates cells with
    | [] => (df', .error "ValueError: date_range endpoint is NaT")
    | d :: ds =>
      let mn := ds.foldl min d
      let mx := ds.foldl max d
      (df', .ok (some ((dateRange mn mx).filter
        (fun x => !(parsedDates cells).contains x))))

/-- One raw observation row of the transformation stage: its timestamp cell
and an opaque payload identifying the rest of the row (other measurement
fields are passed through unexamined). -/
structure Obs where
  ts : Cell
  payload : Int
deriving DecidableEq, Repr

/-- The raw weather table of the transformation stage: whether the
designated date column is present, and the rows. -/
structure WeatherDF where
  hasDateCol : Bool
  rows : List Obs
deriving DecidableEq, Repr

/-- Civil calendar date (year, month, day) of a day ordinal relative to
1970-01-01 (standard days-to-civil conversion; valid for ordinals from year
0 on, which covers the modeled data). -/
def civilFromDays (z : Int) : Int × Int × Int :=
  let w := z + 719468
  let era := w / 146097
  let doe := w - era * 146097
  let yoe := (doe - doe / 1460 + doe / 36524 - doe / 146096) / 365
  let y := yoe + era * 400
  let doy := doe - (365 * yoe + yoe / 4 - yoe / 100)
  let mp := (5 * doy + 2) / 153
  let d := doy - (153 * mp + 2) / 5 + 1
  let m := if mp < 10 then mp + 3 else mp - 9
  (if m ≤ 2 then y + 1 else y, m, d)

/-- Day ordinal of a civil calendar date (standard civil-to-days
conversion; valid from year 0 on). -/
def daysFromCivil (y m d : Int) : Int :=
  let y' := if m ≤ 2 then y - 1 else y
  let era := y' / 400
  let yoe := y' - era * 400
  let mp := if m > 2 then m - 3 else m + 9
  let doy := (153 * mp + 2) / 5 + d - 1
  let doe := yoe * 365 + yoe / 4 - yoe / 100 + doy
  era * 146097 + doe - 719468

/-- The month-level label the cleaner derives (strftime with format
YYYY-MM, month zero-padded to two digits). -/
def monthKey (y m : Int) : String :=
  toString y ++ "-" ++ (if m < 10 then "0" ++ toString m else toString m)

/-- A cleaned observation: parsed timestamp plus the derived calendar
partition fields. -/
structure CleanObs where
  date : Int
  date_month : String
  year : Int
  month : Int
  payload : Int
deriving DecidableEq, Repr

/-- The row pipeline of clean_weather_data once the date column exists:
coerce the date column to datetime, drop rows whose coerced timestamp is
null, drop rows dated strictly after the processing date, then derive the
date_month, year and month columns. -/
def cleanRowsFn (rows : List Obs) (today : Int) : List CleanObs :=
  let coerced := rows.map (fun (r : Obs) => Obs.mk (coerceCell r.ts) r.payload)
  let nonNull := coerced.filterMap (fun (r : Obs) =>
    match cellDate? r.ts with
    | some d => some (d, r.payload)
    | none => none)
  let past := nonNull.filter (fun (p : Int × Int) => decide (p.1 ≤ today))
  past.map (fun (p : Int × Int) =>
    let c := civilFromDays p.1
    CleanObs.mk p.1 (monthKey c.1 c.2.1) c.1 c.2.1 p.2)

/-- Embedding of clean_weather_data (src/transform_data.py).  Reading the
date column of a dataframe that lacks it raises a pandas KeyError, so the
embedding is fallible. -/
def clean_weather_data (df : WeatherDF) (today : Int) :
    Except String (List CleanObs) :=
  if df.hasDateCol then .ok (cleanRowsFn df.rows today)
  else .error "KeyError: Date/Time (LST)"

/-- One monthly aggregate row (the grouped output of the aggregation
stage, input of the delta calculator). -/
structure AggRow where
  station_id : Int
  year : Int
  month : Int
  date_month : String
  temperature_celsius_avg : Rat
  temperature_celsius_min : Rat
  temperature_celsius_max : Rat
deriving DecidableEq, Repr

/-- An aggregate row augmented with the year-over-year delta column. -/
structure DeltaRow where
  station_id : Int
  year : Int
  month : Int
  date_month : String
  temperature_celsius_avg : Rat
  temperature_celsius_min : Rat
  temperature_celsius_max : Rat
  temperature_celsius_yoy_avg : Option Rat
deriving DecidableEq, Repr

/-- The aggregate part of a delta-augmented row. -/
def DeltaRow.toBase (r : DeltaRow) : AggRow :=
  ⟨r.station_id, r.year, r.month, r.date_month, r.temperature_celsius_avg,
   r.temperature_celsius_min, r.temperature_celsius_max⟩

/-- The sort order of the delta calculator: ascending by station id, then
calendar month, then year (pandas sort_values by that column list). -/
def aggLe (a b : AggRow) : Prop :=
  a.station_id < b.station_id ∨ (a.station_id = b.station_id ∧
    (a.month < b.month ∨ (a.month = b.month ∧ a.year ≤ b.year)))

instance : DecidableRel aggLe := fun a b => by
  unfold aggLe; infer_instance

instance : IsTotal AggRow aggLe :=
  ⟨fun a b => by unfold aggLe; omega⟩

instance : IsTrans AggRow aggLe :=
  ⟨fun a b c hab hbc => by unfold aggLe at *; omega⟩

/-- The mean temperature of the most recent already-seen row with the given
station and month key (the previous member of the pandas group); the seen
prefix is kept most-recent-first. -/
def lastSameKey (s m : Int) : List AggRow → Option Rat
  | [] => none
  | r :: rest =>
    if r.station_id == s && r.month == m then some r.temperature_celsius_avg
    else lastSameKey s m rest

/-- Attach a year-over-year delta value to an aggregate row. -/
def withDelta (r : AggRow) (y : Option Rat) : DeltaRow :=
  ⟨r.station_id, r.year, r.month, r.date_month, r.temperature_celsius_avg,
   r.temperature_celsius_min, r.temperature_celsius_max, y⟩

/-- Embedding of pandas groupby diff on the mean-temperature column: each
row receives its mean minus that of the previous row of the same
(station, month) group, null when no such row precedes it. -/
def groupDiffAux (seen : List AggRow) : List AggRow → List DeltaRow
  | [] => []
  | r :: rest =>
    withDelta r ((lastSameKey r.station_id r.month seen).map
        (fun p => r.temperature_celsius_avg - p))
      :: groupDiffAux (r :: seen) rest

/-- Embedding of calculate_year_on_year_delta (src/transform_data.py):
sort by (station, month, year), then the grouped diff of the mean
temperature. -/
def calculate_year_on_year_delta (l : List AggRow) : List DeltaRow :=
  groupDiffAux [] (List.insertionSort aggLe l)

/-- The year-over-year delta sequence the specification describes for one
group: each value minus its predecessor, the first entry (whose
predecessor, if any, is the given carried value) mapped accordingly. -/
def yoyFrom : Option Rat → List Rat → List (Option Rat)
  | _, [] => []
  | prev, a :: rest => (prev.map (fun p => a - p)) :: yoyFrom (some a) rest

/-- One row of the geonames dimension table (the columns the join uses). -/
structure GeoRow where
  id : String
  name : String
  latitude : Rat
  longitude : Rat
  feature_id : String
  map : String
deriving DecidableEq, Repr

/-- One row of the final public schema. -/
structure FinalRow where
  station_name : Option String
  climate_id : Option String
  latitude : Option Rat
  longitude : Option Rat
  date_month : String
  feature_id : Option String
  map : Option String
  temperature_celsius_avg : Rat
  temperature_celsius_min : Rat
  temperature_celsius_max : Rat
  temperature_celsius_yoy_avg : Option Rat
deriving DecidableEq, Repr

/-- The static station-to-climate-id mapping literal of join_with_geonames
(src/transform_data.py). -/
def stationMapping (s : Int) : Option String :=
  if s = 26953 then some "CBCBY" else if s = 31688 then some "EKJCH" else none

/-- The final record of an aggregate row matched with a dimension row:
dimension attributes filled in, temperature statistics carried through,
climate_id taken from the dimension id column as the source projection
does. -/
def matchedRow (a : DeltaRow) (g : GeoRow) : FinalRow :=
  ⟨some g.name, some g.id, some g.latitude, some g.longitude, a.date_month,
   some g.feature_id, some g.map, a.temperature_celsius_avg,
   a.temperature_celsius_min, a.temperature_celsius_max,
   a.temperature_celsius_yoy_avg⟩

/-- The final record of an aggregate row with no dimension match: null
dimension attributes, temperature statistics carried through. -/
def unmatchedRow (a : DeltaRow) : FinalRow :=
  ⟨none, none, none, none, a.date_month, none, none,
   a.temperature_celsius_avg, a.temperature_celsius_min,
   a.temperature_celsius_max, a.temperature_celsius_yoy_avg⟩

/-- The dimension rows matching one aggregate row: equality of the mapped
climate id with the dimension id column; a null climate id (unmapped
station) matches nothing, as pandas NaN keys never join. -/
def geoMatches (geo : List GeoRow) (a : DeltaRow) : List GeoRow :=
  geo.filter (fun g => stationMapping a.station_id == some g.id)

/-- Embedding of pandas left merge row production: each left row yields
its matching right rows, or a single all-null-right row when none match. -/
def joinRows (geo : List GeoRow) : List DeltaRow → List FinalRow
  | [] => []
  | a :: rest =>
    (match geoMatches geo a with
      | [] => [unmatchedRow a]
      | ms => ms.map (matchedRow a)) ++ joinRows geo rest

/-- Embedding of join_with_geonames (src/transform_data.py): map station
ids to climate ids, left-merge against the dimension table, project and
rename to the final schema. -/
def join_with_geonames (agg : List DeltaRow) (geo : List GeoRow) : List FinalRow :=
  joinRows geo agg

/-- The single final record a left merge with a unique-keyed dimension
table produces for one aggregate row. -/
def joinOne (geo : List GeoRow) (a : DeltaRow) : FinalRow :=
  match geo.find? (fun g => stationMapping a.station_id == some g.id) with
  | some g => matchedRow a g
  | none => unmatchedRow a

/-! ### General lemmas about the embedding -/

theorem cellDate?_eq_some_iff (x : Cell) (d : Int) :
    cellDate? x = some d ↔ x = Cell.date d := by
  cases x <;> simp [cellDate?]

theorem joinRows_append (geo : List GeoRow) (l₁ l₂ : List DeltaRow) :
    joinRows geo (l₁ ++ l₂) = joinRows geo l₁ ++ joinRows geo l₂ := by
  induction l₁ with
  | nil => rfl
  | cons a rest ih =>
    simp only [List.cons_append, joinRows, List.append_eq, ih, List.append_assoc]

theorem geoMatches_unmapped (a : DeltaRow) (geo : List GeoRow)
    (h : stationMapping a.station_id = none) : geoMatches geo a = [] := by
  unfold geoMatches
  rw [h]
  exact List.filter_eq_nil_iff.mpr (fun g _ => by simp)

theorem lookup_map_dateCoerce (other col : String) (newCol : List Cell)
    (h : other ≠ col) (df : DF) :
    List.lookup other (df.map (fun p => if p.1 = col then (p.1, newCol) else p)) =
      List.lookup other df := by
  induction df with
  | nil => rfl
  | cons p rest ih =>
    obtain ⟨k, v⟩ := p
    by_cases hk : k = col
    · subst hk
      have hb : (other == k) = false := by simp [h]
      simp only [List.map_cons]
      simp [List.lookup, hb, ih]
    · simp only [List.map_cons, if_neg hk]
      simp [List.lookup, ih]

/-! ### Claim C1 (corrected): duplicate dimension keys fan out, no abort -/

/-- Claim C1, counterexample: with a dimension table whose key column holds
the duplicate value CBCBY twice, join_with_geonames produces output (two
final rows from a single aggregate row) instead of aborting: the run is not
failed and the aggregate row is silently duplicated. -/
theorem duplicate_key_fanout_example :
    (join_with_geonames [⟨26953, 2024, 1, "2024-01", 5, 1, 9, none⟩]
      [⟨"CBCBY", "Cambridge Bay A", 69, -105, "f1", "m1"⟩,
       ⟨"CBCBY", "Cambridge Bay B", 69, -105, "f2", "m2"⟩]).length = 2 := by
  rfl

/-- Claim C1, amended: join_with_geonames never aborts; each aggregate row
produces one output row per matching dimension row (and one all-null row
when nothing matches), so a duplicated dimension key silently fans the
matching aggregate rows out. -/
theorem join_fanout_on_duplicate_keys (agg : List DeltaRow) (geo : List GeoRow) :
    (join_with_geonames agg geo).length =
      (agg.map (fun a => max (geoMatches geo a).length 1)).sum := by
  unfold join_with_geonames
  induction agg with
  | nil => rfl
  | cons a rest ih =>
    simp only [joinRows, List.length_append, List.map_cons, List.sum_cons, ih]
    cases h : geoMatches geo a with
    | nil => simp [h]
    | cons g gs => simp [h]

/-! ### Claim C7 (corrected): all-null date column raises, no graceful report -/

/-- Claim C7, counterexample: on a batch whose date column exists but holds
only null or unparseable values, check_missing_days raises (pandas
date_range rejects NaT endpoints) instead of reporting no valid dates. -/
theorem missing_days_raises_on_all_null :
    (check_missing_days [("Date/Time (LST)", [Cell.null, Cell.bad])]
      "Date/Time (LST)").2 =
      Except.error "ValueError: date_range endpoint is NaT" := by
  rfl

/-- Claim C7, amended: check_missing_days degrades gracefully only when the
date column is absent (returning no result); when the column exists but
contains no parseable date it raises the date_range NaT error. -/
theorem missing_days_error_behavior (df : DF) (col : String) :
    (List.lookup col df = none → check_missing_days df col = (df, Except.ok none)) ∧
    (∀ cells, List.lookup col df = some cells → parsedDates cells = [] →
      (check_missing_days df col).2 =
        Except.error "ValueError: date_range endpoint is NaT") := by
  constructor
  · intro h
    simp [check_missing_days, h]
  · intro cells h hp
    simp [check_missing_days, h, hp]

/-- Claim C7, witness for the amended statement at concrete inputs. -/
theorem missing_days_error_example :
    check_missing_days [] "Date/Time (LST)" = ([], Except.ok none) ∧
      (check_missing_days [("Date/Time (LST)", [Cell.null])]
        "Date/Time (LST)").2 =
        Except.error "ValueError: date_range endpoint is NaT" :=
  ⟨(missing_days_error_behavior [] "Date/Time (LST)").1 rfl,
   (missing_days_error_behavior [("Date/Time (LST)", [Cell.null])]
     "Date/Time (LST)").2 [Cell.null] rfl rfl⟩

/-! ### Claim C8 (corrected): missing date column raises KeyError -/

/-- Claim C8, counterexample: when the designated timestamp column is
absent, clean_weather_data fails with a KeyError instead of returning an
empty-but-valid result. -/
theorem clean_errors_without_date_column :
    clean_weather_data ⟨false, [⟨Cell.text 5, 0⟩]⟩ 10 =
      Except.error "KeyError: Date/Time (LST)" := by
  rfl

/-- Claim C8, amended: on a batch lacking the designated timestamp column,
clean_weather_data always raises the pandas KeyError (the run fails); no
empty batch is produced. -/
theorem clean_keyerror_on_missing_column (df : WeatherDF) (today : Int)
    (h : df.hasDateCol = false) :
    clean_weather_data df today = Except.error "KeyError: Date/Time (LST)" := by
  simp [clean_weather_data, h]

/-- Claim C8, witness for the amended statement at a concrete input. -/
theorem clean_keyerror_example :
    (WeatherDF.mk false []).hasDateCol = false ∧
      clean_weather_data (WeatherDF.mk false []) 0 =
        Except.error "KeyError: Date/Time (LST)" :=
  ⟨rfl, clean_keyerror_on_missing_column (WeatherDF.mk false []) 0 rfl⟩

/-! ### Claim C10 (corrected): check_missing_days coerces the date column in place -/

/-- Claim C10, counterexample: check_missing_days does mutate the inspected
batch: an unparseable date cell is replaced in place by null when the
column is coerced to datetime. -/
theorem missing_days_mutates_batch :
    (check_missing_days [("Date/Time (LST)", [Cell.bad])] "Date/Time (LST)").1 ≠
      [("Date/Time (LST)", [Cell.bad])] := by
  decide

/-- Claim C10, amended: check_nulls and check_outliers leave the inspected
batch unchanged; check_missing_days leaves it unchanged when the date
column is absent and otherwise changes only the date column, which it
replaces in place with its datetime-coerced values. -/
theorem validator_mutation_profile :
    (∀ df : DF, (check_nulls df).2 = df) ∧
    (∀ (df : DF) (cols : List String) (factor : Rat),
      (check_outliers df cols factor).2 = df) ∧
    (∀ (df : DF) (col : String), List.lookup col df = none →
      (check_missing_days df col).1 = df) ∧
    (∀ (df : DF) (col other : String), other ≠ col →
      List.lookup other (check_missing_days df col).1 = List.lookup other df) := by
  refine ⟨fun df => rfl, fun df cols factor => rfl, ?_, ?_⟩
  · intro df col h
    simp [check_missing_days, h]
  · intro df col other h
    cases hl : List.lookup col df with
    | none => simp [check_missing_days, hl]
    | some cells =>
      cases hp : parsedDates cells with
      | nil =>
        simp only [check_missing_days, hl, hp]
        exact lookup_map_dateCoerce other col _ h df
      | cons d ds =>
        simp only [check_missing_days, hl, hp]
        exact lookup_map_dateCoerce other col _ h df

/-- Claim C10, witness for the amended statement at concrete inputs. -/
theorem validator_mutation_example :
    (check_nulls [("a", [Cell.num 1])]).2 = [("a", [Cell.num 1])] ∧
      List.lookup "a" (check_missing_days
        [("a", [Cell.num 1]), ("Date/Time (LST)", [Cell.bad])]
        "Date/Time (LST)").1 = some [Cell.num 1] := by
  refine ⟨validator_mutation_profile.1 _, ?_⟩
  rw [validator_mutation_profile.2.2.2
    [("a", [Cell.num 1]), ("Date/Time (LST)", [Cell.bad])]
    "Date/Time (LST)" "a" (by decide)]
  rfl

/-! ### Claim C2 (confirmed): year-over-year delta computation -/

/-- Group membership of a delta-augmented row, as the boolean key test the
grouped diff uses. -/
def sameKeyD (s m : Int) (r : DeltaRow) : Bool :=
  r.station_id == s && r.month == m

/-- Group membership of an aggregate row. -/
def sameKeyA (s m : Int) (r : AggRow) : Bool :=
  r.station_id == s && r.month == m

theorem toBase_withDelta (r : AggRow) (y : Option Rat) :
    (withDelta r y).toBase = r := rfl

theorem groupDiffAux_map_toBase (l : List AggRow) :
    ∀ seen : List AggRow, (groupDiffAux seen l).map DeltaRow.toBase = l := by
  induction l with
  | nil => intro seen; rfl
  | cons r rest ih =>
    intro seen
    simp [groupDiffAux, toBase_withDelta, ih]

theorem sameKeyD_withDelta (s m : Int) (r : AggRow) (y : Option Rat) :
    sameKeyD s m (withDelta r y) = sameKeyA s m r := rfl

theorem groupDiffAux_filter (s m : Int) (l : List AggRow) :
    ∀ seen : List AggRow,
      ((groupDiffAux seen l).filter (sameKeyD s m)).map
          (fun r => r.temperature_celsius_yoy_avg) =
        yoyFrom (lastSameKey s m seen)
          ((l.filter (sameKeyA s m)).map
            (fun r => r.temperature_celsius_avg)) := by
  induction l with
  | nil => intro seen; rfl
  | cons r rest ih =>
    intro seen
    cases hk : sameKeyA s m r with
    | true =>
      have hs : r.station_id = s ∧ r.month = m := by
        simpa [sameKeyA] using hk
      have hlast : lastSameKey s m (r :: seen) = some r.temperature_celsius_avg := by
        simp [lastSameKey, hs.1, hs.2]
      have hprev : lastSameKey r.station_id r.month seen = lastSameKey s m seen := by
        rw [hs.1, hs.2]
      simp only [groupDiffAux, List.filter_cons, sameKeyD_withDelta, hk,
        List.map_cons, List.filter, ih (r :: seen), hlast, hprev]
      rfl
    | false =>
      have hlast : lastSameKey s m (r :: seen) = lastSameKey s m seen := by
        have : (r.station_id == s && r.month == m) = false := hk
        simp [lastSameKey, this]
      simp only [groupDiffAux, List.filter_cons, sameKeyD_withDelta, hk,
        List.filter, ih (r :: seen), hlast]

/-- Claim C2: calculate_year_on_year_delta returns the input rows sorted
ascending by (station_id, month, year); within every (station_id, month)
group the yoy column is null for the first row and the difference of
consecutive mean temperatures for the rest, so a missing intermediate year
is differenced against the nearest prior present year; on the
specification examples it yields [null, 2, 3] and, with 2023 missing,
[null, 5]. -/
theorem yoy_delta_correct :
    (∀ l : List AggRow,
      ((calculate_year_on_year_delta l).map DeltaRow.toBase).Perm l) ∧
    (∀ l : List AggRow,
      (calculate_year_on_year_delta l).Pairwise
        (fun x y => aggLe x.toBase y.toBase)) ∧
    (∀ (l : List AggRow) (s m : Int),
      (((calculate_year_on_year_delta l).filter (sameKeyD s m)).map
          (fun r => r.temperature_celsius_yoy_avg)) =
        yoyFrom none
          (((calculate_year_on_year_delta l).filter (sameKeyD s m)).map
            (fun r => r.temperature_celsius_avg))) ∧
    ((calculate_year_on_year_delta
        [⟨1, 2022, 6, "2022-06", 10, 8, 12⟩, ⟨1, 2023, 6, "2023-06", 12, 9, 14⟩,
         ⟨1, 2024, 6, "2024-06", 15, 11, 18⟩]).map
        (fun r => r.temperature_celsius_yoy_avg) = [none, some 2, some 3]) ∧
    ((calculate_year_on_year_delta
        [⟨1, 2022, 6, "2022-06", 10, 8, 12⟩, ⟨1, 2024, 6, "2024-06", 15, 11, 18⟩]).map
        (fun r => r.temperature_celsius_yoy_avg) = [none, some 5]) := by
  have hbase : ∀ l : List AggRow,
      (calculate_year_on_year_delta l).map DeltaRow.toBase =
        List.insertionSort aggLe l := by
    intro l
    exact groupDiffAux_map_toBase (List.insertionSort aggLe l) []
  refine ⟨?_, ?_, ?_, ?_, ?_⟩
  · intro l
    rw [hbase l]
    exact List.perm_insertionSort aggLe l
  · intro l
    have hs : (List.insertionSort aggLe l).Pairwise aggLe :=
      List.sorted_insertionSort aggLe l
    rw [← hbase l] at hs
    exact List.pairwise_map.mp hs
  · intro l s m
    have h1 := groupDiffAux_filter s m (List.insertionSort aggLe l) []
    have h2 : (((calculate_year_on_year_delta l).filter (sameKeyD s m)).map
          (fun r => r.temperature_celsius_avg)) =
        (((List.insertionSort aggLe l).filter (sameKeyA s m)).map
          (fun r => r.temperature_celsius_avg)) := by
      rw [← hbase l, List.filter_map, List.map_map]
      rfl
    rw [h2]
    exact h1
  · norm_num [calculate_year_on_year_delta, List.insertionSort, List.orderedInsert,
      aggLe, groupDiffAux, lastSameKey, withDelta]
  · norm_num [calculate_year_on_year_delta, List.insertionSort, List.orderedInsert,
      aggLe, groupDiffAux, lastSameKey, withDelta]

/-! ### Claim C4 (confirmed): unique dimension key gives one output row per input row -/

theorem geoMatches_eq_find (a : DeltaRow) (geo : List GeoRow)
    (h : (geo.map GeoRow.id).Nodup) :
    geoMatches geo a =
      (geo.find? (fun g => stationMapping a.station_id == some g.id)).toList := by
  induction geo with
  | nil => rfl
  | cons g rest ih =>
    simp only [List.map_cons, List.nodup_cons] at h
    cases hm : (stationMapping a.station_id == some g.id) with
    | false =>
      have hika := ih h.2
      simp only [geoMatches] at hika ⊢
      simp [List.filter_cons, List.find?_cons, hm, hika]
    | true =>
      have hid : stationMapping a.station_id = some g.id := by
        simpa using hm
      have hrest : geoMatches rest a = [] := by
        unfold geoMatches
        apply List.filter_eq_nil_iff.mpr
        intro gr hgr hcontra
        have hgid : gr.id = g.id := by
          rw [hid] at hcontra
          have hsome := beq_iff_eq.mp hcontra
          injection hsome with hinj
          exact hinj.symm
        exact h.1 (hgid ▸ List.mem_map_of_mem GeoRow.id hgr)
      simp only [geoMatches] at hrest ⊢
      simp [List.filter_cons, List.find?_cons, hm, hrest]

/-- Claim C4: when the dimension key column is duplicate-free,
join_with_geonames emits exactly one final record per aggregate row (the
matched record when the mapped climate id finds its dimension row, the
null-attribute record otherwise), so the output row count equals the input
row count. -/
theorem join_unique_key_cardinality (agg : List DeltaRow) (geo : List GeoRow)
    (h : (geo.map GeoRow.id).Nodup) :
    join_with_geonames agg geo = agg.map (joinOne geo) ∧
      (join_with_geonames agg geo).length = agg.length := by
  have hmain : join_with_geonames agg geo = agg.map (joinOne geo) := by
    unfold join_with_geonames
    induction agg with
    | nil => rfl
    | cons a rest ih =>
      simp only [joinRows, ih, List.map_cons]
      rw [geoMatches_eq_find a geo h]
      cases hf : geo.find? (fun g => stationMapping a.station_id == some g.id) with
      | none => simp [Option.toList, joinOne, hf]
      | some g => simp [Option.toList, joinOne, hf]
  exact ⟨hmain, by rw [hmain, List.length_map]⟩

/-- Claim C4, witness: a one-row aggregate input against a unique-keyed
one-row dimension table. -/
theorem join_unique_key_example :
    ([(⟨"CBCBY", "Cambridge Bay", 69, -105, "f1", "m1"⟩ : GeoRow)].map GeoRow.id).Nodup ∧
      join_with_geonames [⟨26953, 2024, 1, "2024-01", 5, 1, 9, none⟩]
          [⟨"CBCBY", "Cambridge Bay", 69, -105, "f1", "m1"⟩] =
        [(⟨26953, 2024, 1, "2024-01", 5, 1, 9, none⟩ : DeltaRow)].map
          (joinOne [⟨"CBCBY", "Cambridge Bay", 69, -105, "f1", "m1"⟩]) ∧
      (join_with_geonames [⟨26953, 2024, 1, "2024-01", 5, 1, 9, none⟩]
          [⟨"CBCBY", "Cambridge Bay", 69, -105, "f1", "m1"⟩]).length = 1 :=
  ⟨by decide,
   (join_unique_key_cardinality _ _ (by decide)).1,
   (join_unique_key_cardinality _ _ (by decide)).2⟩

/-! ### Claim C9 (confirmed): unmapped stations pass through with null enrichment -/

/-- Claim C9: an aggregate row whose station id has no entry in the static
station-to-climate-id mapping is retained in place, exactly once, as a
final record whose dimension attributes (station name, climate id,
coordinates, feature id, map code) are all null while its month label,
temperature statistics and yoy delta are carried through unchanged. -/
theorem unmapped_station_passthrough (pre rest : List DeltaRow)
    (geo : List GeoRow) (a : DeltaRow)
    (h : stationMapping a.station_id = none) :
    ∃ r : FinalRow,
      join_with_geonames (pre ++ a :: rest) geo =
        join_with_geonames pre geo ++ r :: join_with_geonames rest geo ∧
      r.station_name = none ∧ r.climate_id = none ∧ r.latitude = none ∧
      r.longitude = none ∧ r.feature_id = none ∧ r.map = none ∧
      r.date_month = a.date_month ∧
      r.temperature_celsius_avg = a.temperature_celsius_avg ∧
      r.temperature_celsius_min = a.temperature_celsius_min ∧
      r.temperature_celsius_max = a.temperature_celsius_max ∧
      r.temperature_celsius_yoy_avg = a.temperature_celsius_yoy_avg := by
  refine ⟨unmatchedRow a, ?_, rfl, rfl, rfl, rfl, rfl, rfl, rfl, rfl, rfl, rfl, rfl⟩
  unfold join_with_geonames
  rw [joinRows_append]
  simp [joinRows, geoMatches_unmapped a geo h]

/-- Claim C9, witness: station 99999 is unmapped; its aggregate row passes
through a join against an empty dimension table with null enrichment. -/
theorem unmapped_station_example :
    stationMapping (99999 : Int) = none ∧
      ∃ r : FinalRow,
        join_with_geonames ([] ++ (⟨99999, 2024, 1, "2024-01", 5, 4, 6, some 2⟩ : DeltaRow) :: []) [] =
          join_with_geonames [] [] ++ r :: join_with_geonames [] [] ∧
        r.station_name = none ∧ r.climate_id = none ∧ r.latitude = none ∧
        r.longitude = none ∧ r.feature_id = none ∧ r.map = none ∧
        r.date_month = (⟨99999, 2024, 1, "2024-01", 5, 4, 6, some 2⟩ : DeltaRow).date_month ∧
        r.temperature_celsius_avg = (⟨99999, 2024, 1, "2024-01", 5, 4, 6, some 2⟩ : DeltaRow).temperature_celsius_avg ∧
        r.temperature_celsius_min = (⟨99999, 2024, 1, "2024-01", 5, 4, 6, some 2⟩ : DeltaRow).temperature_celsius_min ∧
        r.temperature_celsius_max = (⟨99999, 2024, 1, "2024-01", 5, 4, 6, some 2⟩ : DeltaRow).temperature_celsius_max ∧
        r.temperature_celsius_yoy_avg = (⟨99999, 2024, 1, "2024-01", 5, 4, 6, some 2⟩ : DeltaRow).temperature_celsius_yoy_avg :=
  ⟨rfl, unmapped_station_passthrough [] [] []
    (⟨99999, 2024, 1, "2024-01", 5, 4, 6, some 2⟩ : DeltaRow) rfl⟩

/-! ### Claim C3 (confirmed): IQR outlier bounds and counts -/

theorem quantileLinear_some (vals : List Rat) (q : Rat) (h : vals ≠ []) :
    ∃ r, quantileLinear vals q = some r := by
  unfold quantileLinear
  rw [if_neg (by simpa using h)]
  exact ⟨_, rfl⟩

/-- Claim C3: for every requested numeric column present in the batch with
at least one numeric value, check_outliers reports the bounds
Q1 - factor*IQR and Q3 + factor*IQR built from the linear-interpolation
quartiles, and the count of rows outside them; on the column
[1,2,3,4,5,100] with the default factor 3/2 the bounds are -3/2 and 17/2
and exactly the value 100 is flagged. -/
theorem outlier_bounds_correct :
    (∀ (df : DF) (cols : List String) (factor : Rat) (col : String) (cells : List Cell),
      col ∈ cols → List.lookup col df = some cells → numVals cells ≠ [] →
      ∃ q1 q3 : Rat,
        quantileLinear (numVals cells) (1/4) = some q1 ∧
        quantileLinear (numVals cells) (3/4) = some q3 ∧
        List.lookup col (check_outliers df cols factor).1 =
          some ⟨(outlierCells cells (q1 - factor * (q3 - q1))
                  (q3 + factor * (q3 - q1))).length,
                some (q1 - factor * (q3 - q1)),
                some (q3 + factor * (q3 - q1))⟩) ∧
    ((check_outliers
        [("v", [Cell.num 1, Cell.num 2, Cell.num 3, Cell.num 4, Cell.num 5, Cell.num 100])]
        ["v"] (3/2)).1 =
      [("v", ⟨1, some (-(3/2)), some (17/2)⟩)]) ∧
    (outlierCells [Cell.num 1, Cell.num 2, Cell.num 3, Cell.num 4, Cell.num 5, Cell.num 100]
        (-(3/2)) (17/2) = [Cell.num 100]) := by
  refine ⟨?_, ?_, ?_⟩
  · intro df cols factor col cells hcol hlook hne
    obtain ⟨q1, hq1⟩ := quantileLinear_some (numVals cells) (1/4) hne
    obtain ⟨q3, hq3⟩ := quantileLinear_some (numVals cells) (3/4) hne
    refine ⟨q1, q3, hq1, hq3, ?_⟩
    induction hcol with
    | head t =>
      simp only [check_outliers, List.filterMap_cons, hlook, hq1, hq3]
      simp [List.lookup]
    | tail c hmem ih =>
      by_cases hc : c = col
      · subst hc
        simp only [check_outliers, List.filterMap_cons, hlook, hq1, hq3]
        simp [List.lookup]
      · have hb : (col == c) = false := beq_eq_false_iff_ne.mpr (Ne.symm hc)
        simp only [check_outliers] at ih ⊢
        cases hlc : List.lookup c df with
        | none =>
          simp only [List.filterMap_cons, hlc]
          exact ih
        | some cellsc =>
          cases hqa : quantileLinear (numVals cellsc) (1/4) with
          | none =>
            simp only [List.filterMap_cons, hlc, hqa, List.lookup_cons, hb, cond_false]
            exact ih
          | some qa =>
            cases hqb : quantileLinear (numVals cellsc) (3/4) with
            | none =>
              simp only [List.filterMap_cons, hlc, hqa, hqb, List.lookup_cons, hb,
                cond_false]
              exact ih
            | some qb =>
              simp only [List.filterMap_cons, hlc, hqa, hqb, List.lookup_cons, hb,
                cond_false]
              exact ih
  · have hnv : numVals [Cell.num 1, Cell.num 2, Cell.num 3, Cell.num 4, Cell.num 5,
        Cell.num 100] = [1, 2, 3, 4, 5, 100] := rfl
    have hq1 : quantileLinear
        (numVals [Cell.num 1, Cell.num 2, Cell.num 3, Cell.num 4, Cell.num 5, Cell.num 100])
        (1/4) = some (9/4) := by
      rw [hnv]
      norm_num [quantileLinear, List.insertionSort, List.orderedInsert, Rat.floor_def']
    have hq3 : quantileLinear
        (numVals [Cell.num 1, Cell.num 2, Cell.num 3, Cell.num 4, Cell.num 5, Cell.num 100])
        (3/4) = some (19/4) := by
      rw [hnv]
      norm_num [quantileLinear, List.insertionSort, List.orderedInsert, Rat.floor_def',
        show Int.toNat 3 = 3 from rfl]
    simp only [check_outliers, List.filterMap_cons, List.filterMap_nil,
      List.lookup_cons_self, hq1, hq3]
    norm_num [outlierCells, List.filter]
  · norm_num [outlierCells, List.filter]

/-- Claim C3, witness for the universal statement on the specification
example column. -/
theorem outlier_bounds_example :
    ("v" : String) ∈ ["v"] ∧
      List.lookup "v" [("v", [Cell.num 1, Cell.num 2, Cell.num 3, Cell.num 4,
          Cell.num 5, Cell.num 100])] =
        some [Cell.num 1, Cell.num 2, Cell.num 3, Cell.num 4, Cell.num 5, Cell.num 100] ∧
      numVals [Cell.num 1, Cell.num 2, Cell.num 3, Cell.num 4, Cell.num 5, Cell.num 100] ≠ [] ∧
      ∃ q1 q3 : Rat,
        quantileLinear (numVals [Cell.num 1, Cell.num 2, Cell.num 3, Cell.num 4,
            Cell.num 5, Cell.num 100]) (1/4) = some q1 ∧
        quantileLinear (numVals [Cell.num 1, Cell.num 2, Cell.num 3, Cell.num 4,
            Cell.num 5, Cell.num 100]) (3/4) = some q3 ∧
        List.lookup "v" (check_outliers
            [("v", [Cell.num 1, Cell.num 2, Cell.num 3, Cell.num 4, Cell.num 5, Cell.num 100])]
            ["v"] (3/2)).1 =
          some ⟨(outlierCells [Cell.num 1, Cell.num 2, Cell.num 3, Cell.num 4,
                  Cell.num 5, Cell.num 100] (q1 - (3/2) * (q3 - q1))
                  (q3 + (3/2) * (q3 - q1))).length,
                some (q1 - (3/2) * (q3 - q1)),
                some (q3 + (3/2) * (q3 - q1))⟩ :=
  ⟨List.mem_singleton.mpr rfl, rfl, by decide,
   outlier_bounds_correct.1 _ ["v"] (3/2) "v" _ (List.mem_singleton.mpr rfl) rfl (by decide)⟩

/-! ### Claim C5 (confirmed): future and unparseable timestamps are filtered -/

/-- Claim C5: when the date column exists, clean_weather_data succeeds and
keeps exactly the rows whose timestamp parses to a date on or before the
processing date: every surviving row is dated at most today, a row
survives (with its payload) precisely when its timestamp coerces to a
parsed date not after today, and rows whose timestamp fails to parse are
dropped. -/
theorem clean_future_date_filter (df : WeatherDF) (today : Int)
    (h : df.hasDateCol = true) :
    clean_weather_data df today = Except.ok (cleanRowsFn df.rows today) ∧
    (∀ c ∈ cleanRowsFn df.rows today, c.date ≤ today) ∧
    (∀ p d : Int,
      (∃ c ∈ cleanRowsFn df.rows today, c.payload = p ∧ c.date = d) ↔
        ∃ r ∈ df.rows, r.payload = p ∧ coerceCell r.ts = Cell.date d ∧ d ≤ today) := by
  refine ⟨by simp [clean_weather_data, h], ?_, ?_⟩
  · intro c hc
    simp only [cleanRowsFn, List.mem_map, List.mem_filter] at hc
    obtain ⟨q, ⟨hq, hle⟩, rfl⟩ := hc
    exact of_decide_eq_true hle
  · intro p d
    constructor
    · rintro ⟨c, hc, hp, hd⟩
      simp only [cleanRowsFn, List.mem_map, List.mem_filter, List.mem_filterMap] at hc
      obtain ⟨q, ⟨⟨r0, hr0, hq⟩, hle⟩, rfl⟩ := hc
      obtain ⟨r, hr, rfl⟩ := hr0
      cases hcd : cellDate? (coerceCell r.ts) with
      | none => rw [hcd] at hq; cases hq
      | some d0 =>
        rw [hcd] at hq
        cases hq
        refine ⟨r, hr, ?_, ?_, ?_⟩
        · simpa using hp
        · rw [← hd]
          exact (cellDate?_eq_some_iff _ _).mp hcd
        · rw [← hd]
          exact of_decide_eq_true hle
    · rintro ⟨r, hr, hp, hcoerce, hle⟩
      refine ⟨CleanObs.mk d (monthKey (civilFromDays d).1 (civilFromDays d).2.1)
          (civilFromDays d).1 (civilFromDays d).2.1 p, ?_, rfl, rfl⟩
      simp only [cleanRowsFn, List.mem_map, List.mem_filter, List.mem_filterMap]
      refine ⟨(d, p), ⟨⟨Obs.mk (coerceCell r.ts) r.payload,
        ⟨r, hr, rfl⟩, ?_⟩, by simpa using hle⟩, rfl⟩
      rw [show (Obs.mk (coerceCell r.ts) r.payload).ts = coerceCell r.ts from rfl,
        hcoerce, hp]
      rfl

/-- Claim C5, witness: with processing date 10, a row dated 11 (one day in
the future) is excluded, a row dated 9 survives, an unparseable row is
dropped. -/
theorem clean_future_date_example :
    (WeatherDF.mk true [⟨Cell.text 11, 1⟩, ⟨Cell.text 9, 2⟩, ⟨Cell.bad, 3⟩]).hasDateCol = true ∧
      (clean_weather_data (WeatherDF.mk true
          [⟨Cell.text 11, 1⟩, ⟨Cell.text 9, 2⟩, ⟨Cell.bad, 3⟩]) 10 =
          Except.ok (cleanRowsFn [⟨Cell.text 11, 1⟩, ⟨Cell.text 9, 2⟩, ⟨Cell.bad, 3⟩] 10) ∧
        (∀ c ∈ cleanRowsFn [⟨Cell.text 11, 1⟩, ⟨Cell.text 9, 2⟩, ⟨Cell.bad, 3⟩] 10,
          c.date ≤ 10) ∧
        (∀ p d : Int,
          (∃ c ∈ cleanRowsFn [⟨Cell.text 11, 1⟩, ⟨Cell.text 9, 2⟩, ⟨Cell.bad, 3⟩] 10,
              c.payload = p ∧ c.date = d) ↔
            ∃ r ∈ [(⟨Cell.text 11, 1⟩ : Obs), ⟨Cell.text 9, 2⟩, ⟨Cell.bad, 3⟩],
              r.payload = p ∧ coerceCell r.ts = Cell.date d ∧ d ≤ 10)) :=
  ⟨rfl, clean_future_date_filter
    (WeatherDF.mk true [⟨Cell.text 11, 1⟩, ⟨Cell.text 9, 2⟩, ⟨Cell.bad, 3⟩]) 10 rfl⟩

/-! ### Claim C6 (confirmed): missing-day detection over the observed range -/

theorem foldl_min_le_init (ds : List Int) : ∀ d : Int, ds.foldl min d ≤ d := by
  induction ds with
  | nil => intro d; exact le_refl d
  | cons e t ih => intro d; exact le_trans (ih (min d e)) (min_le_left d e)

theorem foldl_max_le_init (ds : List Int) : ∀ d : Int, d ≤ ds.foldl max d := by
  induction ds with
  | nil => intro d; exact le_refl d
  | cons e t ih => intro d; exact le_trans (le_max_left d e) (ih (max d e))

theorem foldl_min_le (ds : List Int) : ∀ d x : Int, x ∈ d :: ds → ds.foldl min d ≤ x := by
  induction ds with
  | nil =>
    intro d x hx
    rcases List.mem_cons.mp hx with rfl | hx'
    · exact le_refl x
    · cases hx'
  | cons e t ih =>
    intro d x hx
    rcases List.mem_cons.mp hx with rfl | hx'
    · exact le_trans (foldl_min_le_init t (min x e)) (min_le_left x e)
    · rcases List.mem_cons.mp hx' with rfl | hx''
      · exact le_trans (foldl_min_le_init t (min d x)) (min_le_right d x)
      · exact ih (min d e) x (List.mem_cons_of_mem _ hx'')

theorem foldl_max_le (ds : List Int) : ∀ d x : Int, x ∈ d :: ds → x ≤ ds.foldl max d := by
  induction ds with
  | nil =>
    intro d x hx
    rcases List.mem_cons.mp hx with rfl | hx'
    · exact le_refl x
    · cases hx'
  | cons e t ih =>
    intro d x hx
    rcases List.mem_cons.mp hx with rfl | hx'
    · exact le_trans (le_max_left x e) (foldl_max_le_init t (max x e))
    · rcases List.mem_cons.mp hx' with rfl | hx''
      · exact le_trans (le_max_right d x) (foldl_max_le_init t (max d x))
      · exact ih (max d e) x (List.mem_cons_of_mem _ hx'')

theorem foldl_min_mem (ds : List Int) : ∀ d : Int, ds.foldl min d = d ∨ ds.foldl min d ∈ ds := by
  induction ds with
  | nil => intro d; exact Or.inl rfl
  | cons e t ih =>
    intro d
    rcases ih (min d e) with h | h
    · rw [List.foldl_cons, h]
      rcases le_total d e with hde | hde
      · rw [min_eq_left hde]
        exact Or.inl rfl
      · rw [min_eq_right hde]
        exact Or.inr (List.mem_cons_self e t)
    · rw [List.foldl_cons]
      exact Or.inr (List.mem_cons_of_mem e h)

theorem foldl_max_mem (ds : List Int) : ∀ d : Int, ds.foldl max d = d ∨ ds.foldl max d ∈ ds := by
  induction ds with
  | nil => intro d; exact Or.inl rfl
  | cons e t ih =>
    intro d
    rcases ih (max d e) with h | h
    · rw [List.foldl_cons, h]
      rcases le_total d e with hde | hde
      · rw [max_eq_right hde]
        exact Or.inr (List.mem_cons_self e t)
      · rw [max_eq_left hde]
        exact Or.inl rfl
    · rw [List.foldl_cons]
      exact Or.inr (List.mem_cons_of_mem e h)

theorem dateRange_pairwise (lo hi : Int) : (dateRange lo hi).Pairwise (· < ·) := by
  unfold dateRange
  have h : ∀ a b : Nat, a < b → lo + (a : Int) < lo + (b : Int) := by
    intro a b hab
    omega
  exact List.Pairwise.map (fun i : Nat => lo + (i : Int)) h (List.pairwise_lt_range _)

/-- Claim C6: when the date column exists and holds at least one parseable
timestamp, check_missing_days succeeds and returns exactly the days of the
full daily range between the observed minimum and maximum that are absent
from the data, in strictly increasing (chronological) order; on observed
dates 2024-01-01 and 2024-01-03 the result is exactly [2024-01-02]. -/
theorem missing_days_correct :
    (∀ (df : DF) (col : String) (cells : List Cell),
      List.lookup col df = some cells → parsedDates cells ≠ [] →
      ∃ mn mx : Int,
        mn ∈ parsedDates cells ∧ mx ∈ parsedDates cells ∧
        (∀ x ∈ parsedDates cells, mn ≤ x ∧ x ≤ mx) ∧
        (check_missing_days df col).2 =
          Except.ok (some ((dateRange mn mx).filter
            (fun x => !(parsedDates cells).contains x))) ∧
        ((dateRange mn mx).filter
          (fun x => !(parsedDates cells).contains x)).Pairwise (· < ·)) ∧
    ((check_missing_days [("Date/Time (LST)",
        [Cell.text (daysFromCivil 2024 1 1), Cell.text (daysFromCivil 2024 1 3)])]
      "Date/Time (LST)").2 = Except.ok (some [daysFromCivil 2024 1 2])) := by

  constructor
  · intro df col cells hlook hne
    cases hp : parsedDates cells with
    | nil => exact absurd hp hne
    | cons d ds =>
      refine ⟨ds.foldl min d, ds.foldl max d, ?_, ?_, ?_, ?_, ?_⟩
      · rcases foldl_min_mem ds d with h | h
        · rw [h]; exact List.mem_cons_self d ds
        · exact List.mem_cons_of_mem d h
      · rcases foldl_max_mem ds d with h | h
        · rw [h]; exact List.mem_cons_self d ds
        · exact List.mem_cons_of_mem d h
      · intro x hx
        exact ⟨foldl_min_le ds d x hx, foldl_max_le ds d x hx⟩
      · simp [check_missing_days, hlook, hp]
      · exact (dateRange_pairwise _ _).filter _
  · rfl

/-- Claim C6, witness for the universal statement on the specification
example (observed 2024-01-01 and 2024-01-03). -/
theorem missing_days_example :
    List.lookup "Date/Time (LST)" [("Date/Time (LST)",
        [Cell.text (daysFromCivil 2024 1 1), Cell.text (daysFromCivil 2024 1 3)])] =
      some [Cell.text (daysFromCivil 2024 1 1), Cell.text (daysFromCivil 2024 1 3)] ∧
    parsedDates [Cell.text (daysFromCivil 2024 1 1), Cell.text (daysFromCivil 2024 1 3)] ≠ [] ∧
    (∃ mn mx : Int,
      mn ∈ parsedDates [Cell.text (daysFromCivil 2024 1 1), Cell.text (daysFromCivil 2024 1 3)] ∧
      mx ∈ parsedDates [Cell.text (daysFromCivil 2024 1 1), Cell.text (daysFromCivil 2024 1 3)] ∧
      (∀ x ∈ parsedDates [Cell.text (daysFromCivil 2024 1 1), Cell.text (daysFromCivil 2024 1 3)],
        mn ≤ x ∧ x ≤ mx) ∧
      (check_missing_days [("Date/Time (LST)",
          [Cell.text (daysFromCivil 2024 1 1), Cell.text (daysFromCivil 2024 1 3)])]
        "Date/Time (LST)").2 =
        Except.ok (some ((dateRange mn mx).filter
          (fun x => !(parsedDates [Cell.text (daysFromCivil 2024 1 1),
            Cell.text (daysFromCivil 2024 1 3)]).contains x))) ∧
      ((dateRange mn mx).filter
        (fun x => !(parsedDates [Cell.text (daysFromCivil 2024 1 1),
          Cell.text (daysFromCivil 2024 1 3)]).contains x)).Pairwise (· < ·)) :=
  ⟨rfl, by decide, missing_days_correct.1 _ "Date/Time (LST)" _ rfl (by decide)⟩

end WeatherETL
